import Mathlib

set_option linter.unusedVariables false

/-!
Verification development for the pydest repository: a shallow embedding of
the manifest update/decode subsystem (the repository's core, per spec.md)
and of the request plumbing in `base.py`, `api.py` and `group.py`.

The manifest module itself (`pydest/manifest.py`) is not present among the
source files; its definitions below are modelled from the specification's
description of the Manifest Manager and Definition Store.  The definitions
for `base.py`, `api.py` and `group.py` are translated directly from those
source files, including a small model of Python name / attribute / keyword
resolution, which is what decides the implicit claims about them.
-/

namespace Pydest

/-- A JSON value, as stored in the manifest content packages and returned
by the HTTP layer. -/
inductive Json where
  | null
  | bool (b : Bool)
  | num (n : Int)
  | str (s : String)
  | arr (elems : List Json)
  | obj (fields : List (String × Json))
deriving Repr, Inhabited

/-! ### Association lists

The per-language cache state, the on-disk directory table, the descriptor's
per-language content paths, and the category tables are all finite maps;
we model them as association lists where an update replaces the first
binding of the key. -/

/-- First-match lookup in an association list. -/
def lookupA {α β : Type} [DecidableEq α] : List (α × β) → α → Option β
  | [], _ => none
  | p :: rest, k => if p.1 = k then some p.2 else lookupA rest k

/-- Replace the first binding of `k` (or append one) in an association list. -/
def setA {α β : Type} [DecidableEq α] : List (α × β) → α → β → List (α × β)
  | [], k, v => [(k, v)]
  | p :: rest, k, v => if p.1 = k then (k, v) :: rest else p :: setA rest k v

/-- Remove every binding of `k` from an association list. -/
def removeA {α β : Type} [DecidableEq α] (l : List (α × β)) (k : α) : List (α × β) :=
  l.filter (fun p => decide (p.1 ≠ k))

theorem lookupA_setA {α β : Type} [DecidableEq α] (l : List (α × β)) (k k' : α) (v : β) :
    lookupA (setA l k v) k' = if k' = k then some v else lookupA l k' := by
  induction l with
  | nil =>
    simp only [setA, lookupA]
    by_cases h : k = k' <;> by_cases h' : k' = k <;> simp_all
  | cons p rest ih =>
    simp only [setA]
    by_cases hp : p.1 = k
    · simp only [hp, if_pos rfl, lookupA]
      by_cases h : k' = k
      · simp [h]
      · have : ¬ (k = k') := fun hh => h hh.symm
        simp [h, this, hp, lookupA]
    · simp only [if_neg hp, lookupA]
      by_cases h : p.1 = k'
      · have : ¬ (k' = k) := fun hh => hp (h.trans hh)
        simp [h, this]
      · simp [h, ih]

theorem lookupA_removeA {α β : Type} [DecidableEq α] (l : List (α × β)) (k k' : α) :
    lookupA (removeA l k) k' = if k' = k then none else lookupA l k' := by
  induction l with
  | nil => simp [removeA, lookupA]
  | cons p rest ih =>
    by_cases hp : p.1 = k
    · have hstep : removeA (p :: rest) k = removeA rest k := by
        simp [removeA, List.filter, hp]
      rw [hstep, ih]
      by_cases h : k' = k
      · simp [h]
      · have hpk : ¬ (p.1 = k') := by
          rw [hp]; exact fun hh => h hh.symm
        simp [h, lookupA, hpk]
    · have hstep : removeA (p :: rest) k = p :: removeA rest k := by
        simp [removeA, List.filter, hp]
      rw [hstep]
      by_cases h : p.1 = k'
      · by_cases hk : k' = k
        · exact absurd (h.trans hk) hp
        · simp [lookupA, h, hk]
      · simp only [lookupA, if_neg h]
        rw [ih]

/-! ### Data model of the manifest subsystem

Modelled from the spec: `pydest/manifest.py` is not among the provided
source files, so the Manifest Manager and Definition Store are embedded
from the specification (sections 3, 4, 6, 7). -/

/-- Modelled from the spec: a definition table is the JSON object held in
one category file of the content package, keyed by string-encoded 32-bit
hashes. -/
abbrev DefinitionTable := List (String × Json)

/-- Modelled from the spec: a content package is a compressed archive
containing one file per entity-definition category. -/
abbrev ContentPackage := List (String × DefinitionTable)

/-- Modelled from the spec: remote metadata — a version identifier and,
per supported language, a relative path to a downloadable content
package. -/
structure ManifestDescriptor where
  version : String
  contentPaths : List (String × String)
deriving Repr

/-- Modelled from the spec: outcome of downloading and extracting one
content package — network failure, a corrupt/incomplete archive, or the
fully extracted content. -/
inductive PackageFetch where
  | unavailable
  | corruptArchive
  | ok (pkg : ContentPackage)

/-- Modelled from the spec: the external world the Manifest Manager talks
to — the remote descriptor endpoint (`none` = network/HTTP failure), the
package download capability per relative path, and whether local disk
writes succeed. -/
structure World where
  descriptor : Option ManifestDescriptor
  fetchPackage : String → PackageFetch
  diskOk : Bool

/-- Modelled from the spec: the error taxonomy of the manifest core
(section 7). -/
inductive ManifestError where
  | UnsupportedLanguage
  | RemoteUnavailable
  | CorruptManifest
  | StorageError
  | UnknownDefinitionCategory
  | HashNotFound
deriving Repr, DecidableEq

/-- Modelled from the spec: local persisted state — `active` records per
language the version last successfully downloaded (`CachedManifest.version`),
and `dirs` is the on-disk layout, one fully extracted content directory
per (language, version), named so a new download never overwrites an
in-use directory. -/
structure ManagerState where
  active : List (String × String)
  dirs : List ((String × String) × ContentPackage)

/-- The state before any successful update: no cached manifest for any
language. -/
def initState : ManagerState := ⟨[], []⟩

/-- Effect counters for one manifest operation: remote descriptor fetches,
content package downloads, and persistent disk writes. -/
structure Effects where
  descriptorFetches : Nat
  contentDownloads : Nat
  diskWrites : Nat
deriving Repr, DecidableEq

/-- A reference to a content directory: its (language, version) key. -/
abbrev DirRef := String × String

/-- Modelled from the spec: `update_manifest(language)` — fetch the
descriptor, compare its version against the locally cached one; if equal,
no-op fast path; otherwise download the package to a temporary location,
extract it into a fresh directory, atomically swap the active pointer and
only then delete the old directory.  Every failure leaves the prior state
intact (temp artifacts are cleaned up, so the dirs table is untouched). -/
def update_manifest (w : World) (st : ManagerState) (L : String) :
    ManagerState × Except ManifestError DirRef × Effects :=
  match w.descriptor with
  | none => (st, .error .RemoteUnavailable, ⟨1, 0, 0⟩)
  | some d =>
    match lookupA d.contentPaths L with
    | none => (st, .error .UnsupportedLanguage, ⟨1, 0, 0⟩)
    | some path =>
      match lookupA st.active L with
      | some V =>
        if V = d.version then
          (st, .ok (L, V), ⟨1, 0, 0⟩)
        else
          match w.fetchPackage path with
          | .unavailable => (st, .error .RemoteUnavailable, ⟨1, 1, 0⟩)
          | .corruptArchive => (st, .error .CorruptManifest, ⟨1, 1, 0⟩)
          | .ok pkg =>
            if w.diskOk then
              (⟨setA st.active L d.version,
                removeA (setA st.dirs (L, d.version) pkg) (L, V)⟩,
               .ok (L, d.version), ⟨1, 1, 1⟩)
            else
              (st, .error .StorageError, ⟨1, 1, 0⟩)
      | none =>
        match w.fetchPackage path with
        | .unavailable => (st, .error .RemoteUnavailable, ⟨1, 1, 0⟩)
        | .corruptArchive => (st, .error .CorruptManifest, ⟨1, 1, 0⟩)
        | .ok pkg =>
          if w.diskOk then
            (⟨setA st.active L d.version, setA st.dirs (L, d.version) pkg⟩,
             .ok (L, d.version), ⟨1, 1, 1⟩)
          else
            (st, .error .StorageError, ⟨1, 1, 0⟩)

/-- A hash identifier as accepted by `decode_hash`: an integer or a
(numeric) string. -/
inductive HashInput where
  | int (n : Nat)
  | str (s : String)

/-- Parse a run of decimal digits, accumulating the value; any
non-digit character makes the whole parse fail. -/
def digitsToNat : List Char → Nat → Option Nat
  | [], acc => some acc
  | c :: cs, acc =>
    if 48 ≤ c.toNat ∧ c.toNat ≤ 57 then
      digitsToNat cs (acc * 10 + (c.toNat - 48))
    else
      none

/-- Conversion of a numeric string to an unsigned integer, as Python's
`int(...)` does for the hash keys: at least one character, all decimal
digits. -/
def parseNat (s : String) : Option Nat :=
  match s.data with
  | [] => none
  | l => digitsToNat l 0

/-- Modelled from the spec: normalize an integer-or-numeric-string hash to
one canonical integer key before lookup. -/
def normalizeHash : HashInput → Option Nat
  | .int n => some n
  | .str s => parseNat s

/-- Modelled from the spec: look up a normalized hash in a definition
table whose keys are string-encoded unsigned 32-bit values. -/
def tableHashLookup (table : DefinitionTable) (n : Nat) : Option Json :=
  match table.find? (fun p => parseNat p.1 == some n) with
  | some p => some p.2
  | none => none

/-- Modelled from the spec: the Definition Store read path — resolve the
active content directory for (language, version), the category file
within it, and the normalized hash within the category's table.  A
missing directory means a tampered/corrupted local cache. -/
def storeLookup (st : ManagerState) (h : HashInput) (category L V : String) :
    Except ManifestError Json :=
  match lookupA st.dirs (L, V) with
  | none => .error .CorruptManifest
  | some pkg =>
    match lookupA pkg category with
    | none => .error .UnknownDefinitionCategory
    | some table =>
      match normalizeHash h with
      | none => .error .HashNotFound
      | some n =>
        match tableHashLookup table n with
        | none => .error .HashNotFound
        | some v => .ok v

/-- Modelled from the spec: `decode_hash(hash_id, definition_category,
language)` — ensure a `CachedManifest` is present for the language
(implicit `update_manifest` only when no cache exists; no refresh when one
does), then query the Definition Store on the resulting state. -/
def decode_hash (w : World) (st : ManagerState) (h : HashInput)
    (category L : String) :
    ManagerState × Except ManifestError Json × Effects :=
  match lookupA st.active L with
  | some V => (st, storeLookup st h category L V, ⟨0, 0, 0⟩)
  | none =>
    match update_manifest w st L with
    | (st', .error e, eff) => (st', .error e, eff)
    | (st', .ok r, eff) => (st', storeLookup st' h category L r.2, eff)

/-- The manager states reachable from the uninitialized state by any
sequence of `update_manifest` / `decode_hash` calls, against arbitrary
(possibly changing) remote worlds. -/
inductive Reachable : ManagerState → Prop where
  | init : Reachable initState
  | update (w : World) (L : String) (st : ManagerState) :
      Reachable st → Reachable (update_manifest w st L).1
  | decode (w : World) (h : HashInput) (C L : String) (st : ManagerState) :
      Reachable st → Reachable (decode_hash w st h C L).1

/-- The spec's invariant on local persisted state: whenever a version is
recorded for a language, the corresponding content directory exists (fully
extracted) in the on-disk table. -/
def activeOk (st : ManagerState) : Prop :=
  ∀ L V, lookupA st.active L = some V →
    ∃ pkg, lookupA st.dirs (L, V) = some pkg

/-! ### Python request plumbing: `base.py`, `api.py`, `group.py`

These definitions are translated from the source files.  Because the
implicit claims are about Python dynamic-name failures (unbound globals,
missing attributes, unexpected keyword arguments), the embedding carries a
small model of Python name resolution: a bare name in a method body is
looked up among the locals and the module's globals, an attribute on
`self` among the instance/class attributes, and a keyword argument must
match a parameter name of the callee. -/

/-- A Python exception, restricted to the classes that the embedded code
can raise. -/
inductive PyExc where
  | nameError (name : String)
  | typeError (msg : String)
  | attributeError (attr : String)
  | pydestException (msg : String)
  | pydestTokenException (msg : String)
  | aiohttpContentTypeError
  | aiohttpClientResponseError
deriving Repr, DecidableEq

/-- An HTTP response as seen by `_request`: its status code, the result of
awaiting `r.json()` (which may raise, e.g. `aiohttp.ContentTypeError`),
and the text body used in error messages. -/
structure HttpResponse where
  status : Nat
  jsonBody : Except PyExc Json
  text : String

/-- Resolution of a bare name in a method body: locals first, then the
enclosing module's globals; otherwise `NameError`. -/
def resolvePyName (locals globals : List String) (x : String) : Except PyExc Unit :=
  if locals.contains x || globals.contains x then .ok () else .error (.nameError x)

/-- Resolution of an attribute access on an object: succeeds when the name
is among the object's (instance, class, or base-class) attributes,
otherwise `AttributeError`. -/
def resolveAttr (attrs : List String) (a : String) : Except PyExc Unit :=
  if attrs.contains a then .ok () else .error (.attributeError a)

/-- Keyword-argument binding at a Python call: every keyword must name a
declared parameter of the callee, otherwise the call raises `TypeError`
before the callee body runs. -/
def bindKwargs (paramNames kwargs : List String) : Except PyExc Unit :=
  match kwargs.find? (fun k => ! paramNames.contains k) with
  | some k => .error (.typeError ("got an unexpected keyword argument " ++ k))
  | none => .ok ()

/-- The names bound at module level in `base.py`: the three imports and
the two names imported from `pydest.errors`, plus the class itself.  The
bare name `pydest` is NOT among them — `base.py` has no `import pydest`
statement. -/
def baseModuleNames : List String :=
  ["aiohttp", "logging", "urllib", "PydestException", "PydestTokenException",
   "_BaseAPI"]

/-- The names bound at module level in `api.py`: here `pydest` IS bound,
by the `import pydest` statement. -/
def apiModuleNames : List String :=
  ["aiohttp", "urllib", "pydest", "PLATFORM_URL", "DESTINY2_URL", "APP_URL",
   "USER_URL", "CONTENT_URL", "GROUP_URL", "GROUP_FILTER_NONE",
   "GROUP_TYPE_CLAN", "API"]

/-- The names bound at module level in `group.py`: only the two imports
and the class.  Neither `GROUP_FILTER_NONE`, `GROUP_TYPE_CLAN` (class
attributes of `_BaseAPI`, not module globals here) nor `memberships` is
among them. -/
def groupModuleNames : List String :=
  ["_BaseAPI", "PydestException", "Group"]

/-- The attributes reachable on a `Group` instance: instance attributes
set in `_BaseAPI.__init__`, the `_BaseAPI` class attributes and methods,
and the methods defined on `Group` itself.  There is no `_postt_request`
— only `_post_request`. -/
def groupInstanceAttrs : List String :=
  ["session", "client_id", "client_secret",
   "PLATFORM_URL", "DESTINY2_URL", "APP_URL", "USER_URL", "CONTENT_URL",
   "GROUP_URL", "GROUP_FILTER_NONE", "GROUP_TYPE_GENERAL", "GROUP_TYPE_CLAN",
   "_request", "_get_request", "_post_request",
   "get_available_avatars", "get_available_themes",
   "get_user_clan_invite_setting", "get_recommended_groups", "search",
   "get_by_id", "get_by_name", "get_groups_for_member", "get_group_members",
   "get_group_pending_members", "get_group_invited_members",
   "group_invite_member", "group_invite_member_cancel",
   "group_pending_members_deny", "group_kick_member",
   "group_approve_pending_member"]

/-- Evaluation of the raise expression in the 401 branch, which reads the
bare name `pydest` before it can construct `PydestTokenException`: if
`pydest` is unbound in the enclosing module, the branch raises `NameError`
instead. -/
def raise401 (globals : List String) : PyExc :=
  match resolvePyName [] globals "pydest" with
  | .error e => e
  | .ok _ => .pydestTokenException "Access token has expired, refresh needed"

/-- `_BaseAPI._request` from `base.py`: inside the `try`, a 401 status
triggers the raise expression above, any other status awaits `r.json()`;
the two `except aiohttp...` clauses translate only the two aiohttp
exception classes into `PydestException`, everything else propagates. -/
def base_request (r : HttpResponse) : Except PyExc Json :=
  let tried : Except PyExc Json :=
    if r.status = 401 then .error (raise401 baseModuleNames)
    else r.jsonBody
  match tried with
  | .error .aiohttpContentTypeError =>
    .error (.pydestException ("Could not decode json from response: " ++ r.text))
  | .error .aiohttpClientResponseError =>
    .error (.pydestException ("Could not connect to Bungie.net: " ++ r.text))
  | other => other

/-- `API._request` from `api.py`: same shape, but `api.py` does bind the
name `pydest`, and its only `except` clause is for
`aiohttp.ClientResponseError`. -/
def api_request (r : HttpResponse) : Except PyExc Json :=
  let tried : Except PyExc Json :=
    if r.status = 401 then .error (raise401 apiModuleNames)
    else r.jsonBody
  match tried with
  | .error .aiohttpClientResponseError =>
    .error (.pydestException "Could not connect to Bungie.net")
  | other => other

/-- The declared parameters of `API._get_request` (and of
`_BaseAPI._get_request`): `url`, `params`, `access_token`. -/
def getRequestParamNames : List String := ["url", "params", "access_token"]

/-- `API.get_membership_data_for_current_user(oauth_token)` from `api.py`:
builds the URL, then calls `self._get_request(url, token=oauth_token)`.
Returns the outcome together with the number of HTTP requests performed. -/
def get_membership_data_for_current_user (oauth_token : String)
    (r : HttpResponse) : Except PyExc Json × Nat :=
  match bindKwargs getRequestParamNames ["token"] with
  | .error e => (.error e, 0)
  | .ok _ => (api_request r, 1)

/-- `API.get_group_pending_members(group_id, access_token, refresh_token)`
from `api.py`: builds the URL, then calls
`self._get_request(url, access_token=..., refresh_token=...)`. -/
def get_group_pending_members (group_id : Int)
    (access_token refresh_token : String) (r : HttpResponse) :
    Except PyExc Json × Nat :=
  match bindKwargs getRequestParamNames ["access_token", "refresh_token"] with
  | .error e => (.error e, 0)
  | .ok _ => (api_request r, 1)

/-- `Group.get_recommended_groups` from `group.py`: the URL f-string reads
`self.GROUP_URL` (present), then the method looks up `self._postt_request`
to make the call. -/
def get_recommended_groups (group_type create_date_range : Int)
    (access_token : String) (r : HttpResponse) : Except PyExc Json × Nat :=
  match resolveAttr groupInstanceAttrs "GROUP_URL" with
  | .error e => (.error e, 0)
  | .ok _ =>
    match resolveAttr groupInstanceAttrs "_postt_request" with
    | .error e => (.error e, 0)
    | .ok _ => (base_request r, 1)

/-- `Group.get_groups_for_member` from `group.py`: the URL f-string reads
`self.GROUP_URL`, the two local parameters, and then the bare names
`GROUP_FILTER_NONE` and `GROUP_TYPE_CLAN`, which are resolved against the
locals and `group.py`'s module globals. -/
def get_groups_for_member (membership_type membership_id : Int)
    (r : HttpResponse) : Except PyExc Json × Nat :=
  let locals := ["self", "membership_type", "membership_id"]
  match resolveAttr groupInstanceAttrs "GROUP_URL" with
  | .error e => (.error e, 0)
  | .ok _ =>
    match resolvePyName locals groupModuleNames "GROUP_FILTER_NONE" with
    | .error e => (.error e, 0)
    | .ok _ =>
      match resolvePyName locals groupModuleNames "GROUP_TYPE_CLAN" with
      | .error e => (.error e, 0)
      | .ok _ => (base_request r, 1)

/-- `Group.group_pending_members_deny` from `group.py`: the first
statement builds the dict
`{'message': message, 'memberships': memberships}`; `message` is a
parameter but `memberships` is neither a parameter, a local, nor a module
global. -/
def group_pending_members_deny (group_id membership_type membership_id : Int)
    (message access_token : String) (r : HttpResponse) :
    Except PyExc Json × Nat :=
  let locals := ["self", "group_id", "membership_type", "membership_id",
                 "message", "access_token"]
  match resolvePyName locals groupModuleNames "memberships" with
  | .error e => (.error e, 0)
  | .ok _ =>
    match resolveAttr groupInstanceAttrs "GROUP_URL" with
    | .error e => (.error e, 0)
    | .ok _ => (base_request r, 1)

/-! ### Concrete data for witnesses

A small two-version scenario: a cached `"v1"` manifest for `"en"`, a
remote world still at `"v1"`, a remote world that has moved to `"v2"`,
and a remote world whose `"v2"` package downloads as a corrupt archive. -/

/-- The `DestinyClassDefinition` object for hash 3147602368 in the `"v1"`
package. -/
def defObjV1 : Json := Json.obj [("classType", Json.num 2),
  ("displayVersion", Json.str "one")]

/-- The `DestinyClassDefinition` object for hash 3147602368 in the `"v2"`
package. -/
def defObjV2 : Json := Json.obj [("classType", Json.num 2),
  ("displayVersion", Json.str "two")]

/-- The object stored under string key `"12345"` in the `"v1"` package. -/
def defObj12345 : Json := Json.obj [("classType", Json.num 0)]

/-- The `"v1"` category table for `DestinyClassDefinition`. -/
def table1 : DefinitionTable :=
  [("3147602368", defObjV1), ("12345", defObj12345)]

/-- The `"v1"` content package. -/
def pkg1 : ContentPackage := [("DestinyClassDefinition", table1)]

/-- The `"v2"` category table for `DestinyClassDefinition`. -/
def table2 : DefinitionTable := [("3147602368", defObjV2)]

/-- The `"v2"` content package. -/
def pkg2 : ContentPackage := [("DestinyClassDefinition", table2)]

/-- Local state with `"v1"` cached and fully extracted for `"en"`. -/
def stV1 : ManagerState := ⟨[("en", "v1")], [(("en", "v1"), pkg1)]⟩

/-- Remote world still publishing version `"v1"`. -/
def wV1 : World :=
  ⟨some ⟨"v1", [("en", "path_en")]⟩, fun _ => .ok pkg1, true⟩

/-- Remote world publishing version `"v2"`. -/
def wV2 : World :=
  ⟨some ⟨"v2", [("en", "path_en")]⟩, fun _ => .ok pkg2, true⟩

/-- Remote world publishing version `"v2"` whose package download yields a
truncated/corrupt archive. -/
def wBad : World :=
  ⟨some ⟨"v2", [("en", "path_en")]⟩, fun _ => .corruptArchive, true⟩

/-! ### Helper lemmas about the manifest operations -/

theorem update_manifest_fetches (w : World) (st : ManagerState) (L : String) :
    (update_manifest w st L).2.2.descriptorFetches = 1 := by
  unfold update_manifest
  repeat' split
  all_goals rfl

theorem update_manifest_error_state (w : World) (st : ManagerState) (L : String)
    (e : ManifestError) (h : (update_manifest w st L).2.1 = .error e) :
    (update_manifest w st L).1 = st := by
  unfold update_manifest at h ⊢
  repeat' split at h <;> repeat' split
  all_goals simp_all

theorem update_manifest_ok_active (w : World) (st : ManagerState) (L : String)
    (r : DirRef) (h : (update_manifest w st L).2.1 = .ok r) :
    r.1 = L ∧ lookupA (update_manifest w st L).1.active L = some r.2 := by
  unfold update_manifest at h ⊢
  repeat' split at h <;> repeat' split
  all_goals simp_all [lookupA_setA]
  all_goals (subst h; simp)

theorem decode_hash_state_cases (w : World) (st : ManagerState)
    (h : HashInput) (C L : String) :
    (decode_hash w st h C L).1 = st ∨
    (decode_hash w st h C L).1 = (update_manifest w st L).1 := by
  rcases ha : lookupA st.active L with _ | V
  · rcases hu : update_manifest w st L with ⟨st', r, eff⟩
    cases r with
    | error e => right; simp [decode_hash, ha, hu]
    | ok rr => right; simp [decode_hash, ha, hu]
  · left; simp [decode_hash, ha]

theorem update_manifest_preserves_activeOk (w : World) (L : String)
    (st : ManagerState) (h : activeOk st) :
    activeOk (update_manifest w st L).1 := by
  rcases hd : w.descriptor with _ | d
  · simpa [update_manifest, hd] using h
  · rcases hp : lookupA d.contentPaths L with _ | p
    · simpa [update_manifest, hd, hp] using h
    · rcases ha : lookupA st.active L with _ | V
      · rcases hf : w.fetchPackage p with _ | _ | pkg
        · simpa [update_manifest, hd, hp, ha, hf] using h
        · simpa [update_manifest, hd, hp, ha, hf] using h
        · by_cases hk : w.diskOk = true
          · intro L2 V2 hL2
            simp only [update_manifest, hd, hp, ha, hf, hk, if_true] at hL2 ⊢
            rw [lookupA_setA] at hL2
            by_cases hL : L2 = L
            · rw [if_pos hL] at hL2
              injection hL2 with hV2
              refine ⟨pkg, ?_⟩
              rw [hL, ← hV2, lookupA_setA, if_pos rfl]
            · rw [if_neg hL] at hL2
              obtain ⟨pkg2, hpkg2⟩ := h L2 V2 hL2
              refine ⟨pkg2, ?_⟩
              rw [lookupA_setA, if_neg (fun hc => hL (congrArg Prod.fst hc))]
              exact hpkg2
          · simpa [update_manifest, hd, hp, ha, hf, hk] using h
      · by_cases hv : V = d.version
        · simpa [update_manifest, hd, hp, ha, hv] using h
        · rcases hf : w.fetchPackage p with _ | _ | pkg
          · simpa [update_manifest, hd, hp, ha, hv, hf] using h
          · simpa [update_manifest, hd, hp, ha, hv, hf] using h
          · by_cases hk : w.diskOk = true
            · intro L2 V2 hL2
              simp [update_manifest, hd, hp, ha, hv, hf, hk] at hL2 ⊢
              rw [lookupA_setA] at hL2
              by_cases hL : L2 = L
              · rw [if_pos hL] at hL2
                injection hL2 with hV2
                have hne : ¬ ((L, d.version) = (L, V)) := by
                  intro hc
                  injection hc with h1 h2
                  exact hv h2.symm
                refine ⟨pkg, ?_⟩
                rw [hL, ← hV2, lookupA_removeA, if_neg hne, lookupA_setA,
                  if_pos rfl]
              · rw [if_neg hL] at hL2
                obtain ⟨pkg2, hpkg2⟩ := h L2 V2 hL2
                have hne1 : ¬ ((L2, V2) = (L, V)) :=
                  fun hc => hL (congrArg Prod.fst hc)
                have hne2 : ¬ ((L2, V2) = (L, d.version)) :=
                  fun hc => hL (congrArg Prod.fst hc)
                refine ⟨pkg2, ?_⟩
                rw [lookupA_removeA, if_neg hne1, lookupA_setA, if_neg hne2]
                exact hpkg2
            · simpa [update_manifest, hd, hp, ha, hv, hf, hk] using h

theorem reachable_activeOk (st : ManagerState) (h : Reachable st) :
    activeOk st := by
  induction h with
  | init =>
    intro L V hLV
    simp [initState, lookupA] at hLV
  | update w L st hst ih => exact update_manifest_preserves_activeOk w L st ih
  | decode w hh C L st hst ih =>
    rcases decode_hash_state_cases w st hh C L with h1 | h1
    · rw [h1]; exact ih
    · rw [h1]; exact update_manifest_preserves_activeOk w L st ih

theorem update_manifest_active_transition (w : World) (st : ManagerState)
    (L : String) :
    lookupA (update_manifest w st L).1.active L = lookupA st.active L ∨
    ∃ d, w.descriptor = some d ∧
      lookupA (update_manifest w st L).1.active L = some d.version := by
  rcases hd : w.descriptor with _ | d
  · left; simp [update_manifest, hd]
  · rcases hp : lookupA d.contentPaths L with _ | p
    · left; simp [update_manifest, hd, hp]
    · rcases ha : lookupA st.active L with _ | V
      · rcases hf : w.fetchPackage p with _ | _ | pkg
        · left; simp [update_manifest, hd, hp, ha, hf]
        · left; simp [update_manifest, hd, hp, ha, hf]
        · by_cases hk : w.diskOk = true
          · right
            exact ⟨d, rfl, by
              simp [update_manifest, hd, hp, ha, hf, hk, lookupA_setA]⟩
          · left; simp [update_manifest, hd, hp, ha, hf, hk]
      · by_cases hv : V = d.version
        · left; simp [update_manifest, hd, hp, ha, hv]
        · rcases hf : w.fetchPackage p with _ | _ | pkg
          · left; simp [update_manifest, hd, hp, ha, hv, hf]
          · left; simp [update_manifest, hd, hp, ha, hv, hf]
          · by_cases hk : w.diskOk = true
            · right
              exact ⟨d, rfl, by
                simp [update_manifest, hd, hp, ha, hv, hf, hk, lookupA_setA]⟩
            · left; simp [update_manifest, hd, hp, ha, hv, hf, hk]

/-! ### Claim theorems -/

/-- C1: every failure of `update_manifest(L)` — remote descriptor or
package unavailable, corrupt archive, or disk write failure — leaves the
cached manifest state exactly as it was: the post-state equals the
pre-state, `CachedManifest.version` for `L` is unchanged, and every
subsequent `decode_hash` call returns the same result it would have
returned before the failed update. -/
theorem update_manifest_failure_leaves_cache_intact
    (w : World) (st : ManagerState) (L : String) (e : ManifestError)
    (hfail : (update_manifest w st L).2.1 = .error e) :
    (update_manifest w st L).1 = st ∧
    lookupA (update_manifest w st L).1.active L = lookupA st.active L ∧
    ∀ w2 h C L2,
      decode_hash w2 (update_manifest w st L).1 h C L2 =
        decode_hash w2 st h C L2 := by
  have hst := update_manifest_error_state w st L e hfail
  exact ⟨hst, by rw [hst], fun w2 h C L2 => by rw [hst]⟩

/-- Witness for C1: a truncated-archive download of `"v2"` fails with
`CorruptManifest`; the cached version for `"en"` is unchanged and a
subsequent decode returns the `"v1"` result. -/
theorem update_manifest_failure_leaves_cache_intact_witness :
    lookupA (update_manifest wBad stV1 "en").1.active "en" =
      lookupA stV1.active "en" ∧
    decode_hash wV1 (update_manifest wBad stV1 "en").1 (.int 3147602368)
        "DestinyClassDefinition" "en" =
      decode_hash wV1 stV1 (.int 3147602368) "DestinyClassDefinition" "en" :=
  ⟨(update_manifest_failure_leaves_cache_intact wBad stV1 "en"
      .CorruptManifest rfl).2.1,
   (update_manifest_failure_leaves_cache_intact wBad stV1 "en"
      .CorruptManifest rfl).2.2 wV1 (.int 3147602368)
      "DestinyClassDefinition" "en"⟩

/-- C2: after a successful `update_manifest(L)`, `decode_hash(h, C, L)`
succeeds and returns exactly the JSON object that the content package now
active for `L` associates with hash `h` in category `C`, for every hash
present in that category. -/
theorem update_then_decode_returns_package_object
    (w : World) (st : ManagerState) (L V C : String) (pkg : ContentPackage)
    (table : DefinitionTable) (n : Nat) (v : Json)
    (hok : (update_manifest w st L).2.1 = .ok (L, V))
    (hdir : lookupA (update_manifest w st L).1.dirs (L, V) = some pkg)
    (hcat : lookupA pkg C = some table)
    (hhash : tableHashLookup table n = some v) :
    (decode_hash w (update_manifest w st L).1 (.int n) C L).2.1 = .ok v := by
  have hact := (update_manifest_ok_active w st L (L, V) hok).2
  simp [decode_hash, hact, storeLookup, hdir, hcat, normalizeHash, hhash]

/-- Witness for C2: the descriptor reports `"v2"` for `"en"` while the
local cache holds `"v1"`; after `update_manifest("en")`,
`decode_hash(3147602368, "DestinyClassDefinition", "en")` returns the
object the `"v2"` package associates with key `"3147602368"`. -/
theorem update_then_decode_returns_package_object_witness :
    (decode_hash wV2 (update_manifest wV2 stV1 "en").1 (.int 3147602368)
        "DestinyClassDefinition" "en").2.1 = .ok defObjV2 :=
  update_then_decode_returns_package_object wV2 stV1 "en" "v2"
    "DestinyClassDefinition" pkg2 table2 3147602368 defObjV2 rfl rfl rfl rfl

/-- C3: for a hash stored under string key `k` (with numeric value `n`),
`decode_hash` with the integer `n` and with the numeric string `k` are the
same call — both normalize to one canonical integer key — and both return
the stored definition object. -/
theorem decode_hash_normalizes_int_and_string
    (w : World) (st : ManagerState) (L V C : String) (pkg : ContentPackage)
    (table : DefinitionTable) (k : String) (n : Nat) (v : Json)
    (ha : lookupA st.active L = some V)
    (hdir : lookupA st.dirs (L, V) = some pkg)
    (hcat : lookupA pkg C = some table)
    (hk : parseNat k = some n)
    (hhash : tableHashLookup table n = some v) :
    decode_hash w st (.int n) C L = decode_hash w st (.str k) C L ∧
    (decode_hash w st (.int n) C L).2.1 = .ok v := by
  constructor
  · simp [decode_hash, ha, storeLookup, hdir, hcat, normalizeHash, hk]
  · simp [decode_hash, ha, storeLookup, hdir, hcat, normalizeHash, hhash]

/-- Witness for C3: key `"12345"` is retrievable via `decode_hash(12345)`
and via `decode_hash("12345")`, with the same result. -/
theorem decode_hash_normalizes_int_and_string_witness :
    decode_hash wV2 stV1 (.int 12345) "DestinyClassDefinition" "en" =
      decode_hash wV2 stV1 (.str "12345") "DestinyClassDefinition" "en" ∧
    (decode_hash wV2 stV1 (.int 12345) "DestinyClassDefinition" "en").2.1 =
      .ok defObj12345 :=
  decode_hash_normalizes_int_and_string wV2 stV1 "en" "v1"
    "DestinyClassDefinition" pkg1 table1 "12345" 12345 defObj12345
    rfl rfl rfl rfl rfl

/-- C4: when the descriptor's version equals the cached version,
`update_manifest` is a no-op fast path — no content download, no disk
writes — and a second consecutive call performs only the same cheap
version check and returns the same content directory reference. -/
theorem update_manifest_idempotent_same_version
    (w : World) (st : ManagerState) (L : String) (d : ManifestDescriptor)
    (p V : String)
    (hd : w.descriptor = some d)
    (hp : lookupA d.contentPaths L = some p)
    (ha : lookupA st.active L = some V)
    (hv : d.version = V) :
    update_manifest w st L = (st, .ok (L, V), ⟨1, 0, 0⟩) ∧
    update_manifest w (update_manifest w st L).1 L =
      (st, .ok (L, V), ⟨1, 0, 0⟩) := by
  have h1 : update_manifest w st L = (st, .ok (L, V), ⟨1, 0, 0⟩) := by
    simp [update_manifest, hd, hp, ha, hv]
  exact ⟨h1, by rw [h1]; exact h1⟩

/-- Witness for C4: with the remote still at `"v1"` and `"v1"` cached,
both consecutive calls are the fast path with zero downloads and zero
disk writes. -/
theorem update_manifest_idempotent_same_version_witness :
    update_manifest wV1 stV1 "en" = (stV1, .ok ("en", "v1"), ⟨1, 0, 0⟩) ∧
    update_manifest wV1 (update_manifest wV1 stV1 "en").1 "en" =
      (stV1, .ok ("en", "v1"), ⟨1, 0, 0⟩) :=
  update_manifest_idempotent_same_version wV1 stV1 "en"
    ⟨"v1", [("en", "path_en")]⟩ "path_en" "v1" rfl rfl rfl rfl

/-- C5: in every reachable state, whenever a version is recorded for a
language the corresponding content directory exists fully extracted
(`activeOk`); and every `update_manifest` call either leaves the
language's cached version unchanged or moves it in one step to the
descriptor's version. -/
theorem manifest_state_machine_invariant :
    (∀ st, Reachable st → activeOk st) ∧
    (∀ (w : World) (st : ManagerState) (L : String),
        lookupA (update_manifest w st L).1.active L = lookupA st.active L ∨
        ∃ d, w.descriptor = some d ∧
          lookupA (update_manifest w st L).1.active L = some d.version) :=
  ⟨fun st h => reachable_activeOk st h,
   fun w st L => update_manifest_active_transition w st L⟩

/-- Witness for C5: after one successful update from the uninitialized
state, the recorded `"v1"` for `"en"` has an existing extracted content
directory. -/
theorem manifest_state_machine_invariant_witness :
    ∃ pkg, lookupA (update_manifest wV1 initState "en").1.dirs ("en", "v1") =
      some pkg :=
  manifest_state_machine_invariant.1 (update_manifest wV1 initState "en").1
    (Reachable.update wV1 "en" initState Reachable.init) "en" "v1" rfl

/-- C6: `decode_hash` triggers an implicit `update_manifest` (one remote
descriptor fetch, update errors propagated, the updated state kept) only
when no cache exists for the language; when a cache exists it performs no
remote fetch and no refresh — zero effects, state unchanged — regardless
of the remote world. -/
theorem decode_hash_implicit_update_policy
    (w : World) (st : ManagerState) (h : HashInput) (C L : String) :
    (∀ V, lookupA st.active L = some V →
        (decode_hash w st h C L).1 = st ∧
        (decode_hash w st h C L).2.2 = ⟨0, 0, 0⟩) ∧
    (lookupA st.active L = none →
        (decode_hash w st h C L).1 = (update_manifest w st L).1 ∧
        (decode_hash w st h C L).2.2 = (update_manifest w st L).2.2 ∧
        (update_manifest w st L).2.2.descriptorFetches = 1 ∧
        ∀ e, (update_manifest w st L).2.1 = .error e →
          (decode_hash w st h C L).2.1 = .error e) := by
  constructor
  · intro V ha
    constructor <;> simp [decode_hash, ha]
  · intro ha
    rcases hu : update_manifest w st L with ⟨st', r, eff⟩
    have hf := update_manifest_fetches w st L
    rw [hu] at hf
    cases r with
    | error e =>
      refine ⟨by simp [decode_hash, ha, hu], by simp [decode_hash, ha, hu],
        hf, ?_⟩
      intro e' he'
      simp at he'
      subst he'
      simp [decode_hash, ha, hu]
    | ok rr =>
      refine ⟨by simp [decode_hash, ha, hu], by simp [decode_hash, ha, hu],
        hf, ?_⟩
      intro e' he'
      simp at he'

/-- Witness for C6: with `"v1"` cached for `"en"` and the remote already
at `"v2"`, a decode call leaves the state unchanged and performs zero
fetches, downloads and writes. -/
theorem decode_hash_implicit_update_policy_witness :
    (decode_hash wV2 stV1 (.int 3147602368)
        "DestinyClassDefinition" "en").1 = stV1 ∧
    (decode_hash wV2 stV1 (.int 3147602368)
        "DestinyClassDefinition" "en").2.2 = ⟨0, 0, 0⟩ :=
  (decode_hash_implicit_update_policy wV2 stV1 (.int 3147602368)
      "DestinyClassDefinition" "en").1 "v1" rfl

/-- C7: for a cached language and a category present in the extracted
content, `decode_hash` on a hash absent from that category's table fails
with precisely `HashNotFound` and leaves all cache state unchanged. -/
theorem decode_hash_absent_hash_not_found
    (w : World) (st : ManagerState) (L V C : String) (pkg : ContentPackage)
    (table : DefinitionTable) (h : HashInput) (n : Nat)
    (ha : lookupA st.active L = some V)
    (hdir : lookupA st.dirs (L, V) = some pkg)
    (hcat : lookupA pkg C = some table)
    (hn : normalizeHash h = some n)
    (habs : tableHashLookup table n = none) :
    decode_hash w st h C L = (st, .error .HashNotFound, ⟨0, 0, 0⟩) := by
  simp [decode_hash, ha, storeLookup, hdir, hcat, hn, habs]

/-- Witness for C7: hash 999 is absent from the cached
`DestinyClassDefinition` table; the call fails with `HashNotFound` and
the state is returned unchanged. -/
theorem decode_hash_absent_hash_not_found_witness :
    decode_hash wV2 stV1 (.int 999) "DestinyClassDefinition" "en" =
      (stV1, .error .HashNotFound, ⟨0, 0, 0⟩) :=
  decode_hash_absent_hash_not_found wV2 stV1 "en" "v1"
    "DestinyClassDefinition" pkg1 table1 (.int 999) 999 rfl rfl rfl rfl rfl

/-- C8: in `_BaseAPI._request` (base.py), every response with HTTP status
401 makes the call raise `NameError` for the unbound module name `pydest`
— not `PydestTokenException` — because `base.py` imports the exception
classes directly but the raise statement references
`pydest.PydestTokenException`. -/
theorem base_request_401_raises_nameError (r : HttpResponse)
    (h : r.status = 401) :
    base_request r = .error (.nameError "pydest") := by
  cases r with
  | mk status jsonBody text =>
    have h' : status = 401 := h
    subst h'
    rfl

/-- Witness for C8 at a concrete 401 response. -/
theorem base_request_401_raises_nameError_witness :
    base_request ⟨401, .ok Json.null, "unauthorized"⟩ =
      .error (.nameError "pydest") :=
  base_request_401_raises_nameError ⟨401, .ok Json.null, "unauthorized"⟩ rfl

/-- C9: `API.get_membership_data_for_current_user` and
`API.get_group_pending_members` raise `TypeError` on every input before
any HTTP request is made: they pass the keyword arguments `token`,
respectively `refresh_token`, which `API._get_request` (parameters `url`,
`params`, `access_token`) does not accept. -/
theorem api_unexpected_kwargs_type_error :
    (∀ oauth_token r,
        get_membership_data_for_current_user oauth_token r =
          (.error (.typeError "got an unexpected keyword argument token"),
           0)) ∧
    (∀ group_id access_token refresh_token r,
        get_group_pending_members group_id access_token refresh_token r =
          (.error
            (.typeError "got an unexpected keyword argument refresh_token"),
           0)) := by
  constructor
  · intro oauth_token r; rfl
  · intro group_id access_token refresh_token r; rfl

/-- C10: `Group.get_recommended_groups` raises `AttributeError` for the
nonexistent `_postt_request`; `Group.get_groups_for_member` raises
`NameError` (first for `GROUP_FILTER_NONE`, referenced without `self.`
and absent from `group.py`'s globals); `Group.group_pending_members_deny`
raises `NameError` for `memberships`; none of the three ever performs its
HTTP request. -/
theorem group_broken_methods_raise :
    (∀ group_type create_date_range access_token r,
        get_recommended_groups group_type create_date_range access_token r =
          (.error (.attributeError "_postt_request"), 0)) ∧
    (∀ membership_type membership_id r,
        get_groups_for_member membership_type membership_id r =
          (.error (.nameError "GROUP_FILTER_NONE"), 0)) ∧
    (∀ group_id membership_type membership_id message access_token r,
        group_pending_members_deny group_id membership_type membership_id
            message access_token r =
          (.error (.nameError "memberships"), 0)) := by
  refine ⟨?_, ?_, ?_⟩ <;> intros <;> rfl

end Pydest
